import Mathlib

/-!
Verification of the PPPoE/gas billing backend (server.js, database.js as
src/unnamed/part_000, whatsapp.js) against its natural-language
specification.  The SQLite tables are modelled as Lean lists, the
`better-sqlite3` operations as pure functions over an explicit database
state, and the Express routes as functions returning an HTTP status
together with the new state.  External primitives (bcrypt, jsonwebtoken,
the WhatsApp transport, locale date/number formatting) are modelled as
parameters, as the spec treats them as opaque collaborators.
-/

namespace Billing

/-- `jenis` column of the transactions table: CHECK(jenis IN ('pemasukan','pengeluaran')). -/
inductive Jenis where
  | pemasukan
  | pengeluaran
deriving DecidableEq, Repr

/-- `status` column of the transactions table: CHECK(status IN ('pending','lunas')). -/
inductive TStatus where
  | pending
  | lunas
deriving DecidableEq, Repr

/-- A row of the `transactions` table (src/unnamed/part_000, CREATE TABLE transactions). -/
structure Transaction where
  id : Nat
  customer_id : Nat
  customer_nama : String
  customer_tipe : String
  kategori : String
  jumlah : Int
  jenis : Jenis
  status : TStatus
  deskripsi : Option String
  created_by : Option Nat
deriving DecidableEq, Repr

/-- A row of the `customers` table (src/unnamed/part_000, CREATE TABLE customers).
`aktif` is stored as INTEGER 0/1 and modelled as Bool. -/
structure Customer where
  id : Nat
  nama : String
  tipe : String
  whatsapp : String
  username_pppoe : Option String
  password_pppoe : Option String
  alamat : Option String
  aktif : Bool
deriving DecidableEq, Repr

/-- The customers and transactions tables, plus the AUTOINCREMENT counter
used for fresh transaction ids. -/
structure DB where
  customers : List Customer
  transactions : List Transaction
  nextTransId : Nat
deriving DecidableEq, Repr

/-- `transactionOps.getById`: SELECT ... FROM transactions WHERE t.id = ?
(the LEFT JOIN only adds a derived column, which none of the verified
operations read). -/
def findTransaction (db : DB) (id : Nat) : Option Transaction :=
  db.transactions.find? (fun t => t.id == id)

/-- The effect of UPDATE transactions SET status = 'lunas' WHERE id = ?
on one row. -/
def settleRow (id : Nat) (u : Transaction) : Transaction :=
  if u.id == id then { u with status := TStatus.lunas } else u

/-- The synthetic receipt row INSERTed by `markAsLunas`: same customer
snapshot, category and amount as the settled transaction, with
jenis='pemasukan', status='lunas', deskripsi='Pembayaran otomatis', and a
fresh AUTOINCREMENT id. -/
def mkReceipt (db : DB) (t : Transaction) (userId : Option Nat) : Transaction :=
  { id := db.nextTransId
    customer_id := t.customer_id
    customer_nama := t.customer_nama
    customer_tipe := t.customer_tipe
    kategori := t.kategori
    jumlah := t.jumlah
    jenis := Jenis.pemasukan
    status := TStatus.lunas
    deskripsi := some "Pembayaran otomatis"
    created_by := userId }

/-- `transactionOps.markAsLunas` (src/unnamed/part_000 lines 477-494):
look up the transaction; if present, UPDATE its status to 'lunas' and
INSERT the synthetic receipt.  Returns false and leaves the database
unchanged when the id is absent. -/
def markAsLunas (db : DB) (id : Nat) (userId : Option Nat) : Bool × DB :=
  match findTransaction db id with
  | none => (false, db)
  | some t =>
      (true, { db with transactions := db.transactions.map (settleRow id) ++ [mkReceipt db t userId],
                       nextTransId := db.nextTransId + 1 })

/-- Route POST /api/transactions/:id/mark-lunas (src/server.js lines 377-390):
404 when `markAsLunas` reports the id missing, 200 otherwise. -/
def markLunasRoute (db : DB) (id : Nat) (userId : Option Nat) : Nat × DB :=
  let r := markAsLunas db id userId
  if r.1 then (200, r.2) else (404, r.2)

/-- SUM(jumlah) over a list of transaction rows, as SQLite folds it up. -/
def sumJumlah (l : List Transaction) : Int :=
  (l.map (fun t => t.jumlah)).foldl (fun a b => a + b) 0

/-- Aggregate result of `transactionOps.getStats`. -/
structure Stats where
  income : Int
  expense : Int
  pending : Int
  balance : Int
deriving DecidableEq, Repr

/-- `transactionOps.getStats` (src/unnamed/part_000 lines 440-446):
COALESCE(SUM(jumlah),0) filtered by jenis='pemasukan', jenis='pengeluaran'
and status='pending' respectively, with balance = income - expense. -/
def getStats (db : DB) : Stats :=
  let income := sumJumlah (db.transactions.filter (fun t => t.jenis == Jenis.pemasukan))
  let expense := sumJumlah (db.transactions.filter (fun t => t.jenis == Jenis.pengeluaran))
  let pending := sumJumlah (db.transactions.filter (fun t => t.status == TStatus.pending))
  { income := income, expense := expense, pending := pending, balance := income - expense }

/-- Row predicate of the join in `customerOps.getWithPending`:
t.customer_id = c.id AND t.status = 'pending'. -/
def isPendingOf (cid : Nat) (t : Transaction) : Bool :=
  t.customer_id == cid && t.status == TStatus.pending

/-- SUM(t.jumlah) of the pending transactions of one customer (one GROUP BY
group of `getWithPending`). -/
def pendingTotal (db : DB) (cid : Nat) : Int :=
  sumJumlah (db.transactions.filter (isPendingOf cid))

/-- `customerOps.getWithPending` (src/unnamed/part_000 lines 351-361):
SELECT c.*, SUM(t.jumlah) AS total_debt FROM customers c INNER JOIN
transactions t ON c.id = t.customer_id WHERE t.status = 'pending' AND
c.aktif = 1 GROUP BY c.id HAVING total_debt > 0.  A group exists exactly
when the customer is active and has at least one pending transaction; the
HAVING clause keeps only strictly positive sums. -/
def getWithPending (db : DB) : List (Customer × Int) :=
  (db.customers.filter
      (fun c => c.aktif && db.transactions.any (isPendingOf c.id)
        && decide (pendingTotal db c.id > 0))).map
    (fun c => (c, pendingTotal db c.id))

/-- Recognizes a synthetic receipt row of a given amount: deskripsi is the
automatic-payment marker, jenis='pemasukan'. -/
def isReceiptOf (amount : Int) (r : Transaction) : Bool :=
  r.deskripsi == some "Pembayaran otomatis" && r.jenis == Jenis.pemasukan
    && r.jumlah == amount

/-- Number of synthetic receipt rows of a given amount in the store. -/
def receiptCount (db : DB) (amount : Int) : Nat :=
  (db.transactions.filter (isReceiptOf amount)).length

/-- A row of the `users` table.  `password` holds the bcrypt hash. -/
structure User where
  id : Nat
  username : String
  password : String
  nama_lengkap : String
  role : String
  aktif : Bool
deriving DecidableEq, Repr

/-- The observable part of an HTTP response of the auth endpoints: status
code, success flag, and the error string of the JSON body (none on
success). -/
structure ApiResponse where
  status : Nat
  success : Bool
  error : Option String
deriving DecidableEq, Repr

/-- Route POST /api/auth/login (src/server.js lines 65-101).
`verify secret hash` models `bcrypt.compareSync(password, user.password)`,
an opaque one-way compare passed in as a parameter.  The three failure
branches return 401 with three different body error strings, exactly as
the source does. -/
def login (verify : String → String → Bool) (users : List User)
    (username password : String) : ApiResponse :=
  match users.find? (fun u => u.username == username) with
  | none => { status := 401, success := false, error := some "Username tidak ditemukan" }
  | some user =>
      if !user.aktif then
        { status := 401, success := false, error := some "Akun tidak aktif" }
      else if !(verify password user.password) then
        { status := 401, success := false, error := some "Password salah" }
      else
        { status := 200, success := true, error := none }

/-- The payload `jwt.sign` embeds at login: { id, username, role }. -/
structure TokenPayload where
  id : Nat
  username : String
  role : String
deriving DecidableEq, Repr

/-- A bearer token as seen by `jwt.verify`: its embedded payload, whether
the signature checks out against JWT_SECRET, and whether its 24-hour
validity has elapsed. -/
structure Token where
  payload : TokenPayload
  signatureValid : Bool
  expired : Bool
deriving DecidableEq, Repr

/-- `jwt.verify(token, JWT_SECRET)`: yields the decoded payload when the
signature is valid and the token unexpired, otherwise throws (modelled as
none). -/
def jwtVerify (tok : Token) : Option TokenPayload :=
  if tok.signatureValid && !tok.expired then some tok.payload else none

/-- Route GET /api/auth/verify (src/server.js lines 104-133): decode the
token, then RE-READ the user row by the decoded id; reject with 401 when
the row is missing or the account is inactive. -/
def verifyEndpoint (users : List User) (tok : Token) : ApiResponse :=
  match jwtVerify tok with
  | none => { status := 401, success := false, error := some "Token expired" }
  | some decoded =>
      match users.find? (fun u => u.id == decoded.id) with
      | none => { status := 401, success := false, error := some "User tidak valid" }
      | some user =>
          if !user.aktif then
            { status := 401, success := false, error := some "User tidak valid" }
          else
            { status := 200, success := true, error := none }

/-- Middleware `authenticateToken` (src/server.js lines 138-154): decode
the token and, on success, let the request proceed with `req.user` set to
the decoded payload.  It never consults the users table.  `Except.error`
is the 401 response sent when decoding fails. -/
def authenticateToken (tok : Token) : Except ApiResponse TokenPayload :=
  match jwtVerify tok with
  | none => Except.error { status := 401, success := false, error := some "Token tidak valid" }
  | some decoded => Except.ok decoded

/-- One payload written to an SSE channel: the connected ack
({type:'connected'}), a wa_status frame carrying the gateway status, or a
broadcast event identified by its publish sequence number. -/
inductive Msg where
  | connected
  | waStatus (st : String)
  | ev (n : Nat)
deriving DecidableEq, Repr

/-- The operations touching the fan-out state, in the order the
single-threaded event loop runs them: a channel connecting to GET
/api/events, a channel closing, the gateway status changing, and a
`broadcast` call.  Each handler runs to completion before the next. -/
inductive FanOp where
  | subscribe (ch : Nat)
  | close (ch : Nat)
  | setStatus (st : String)
  | publish (n : Nat)
deriving DecidableEq, Repr

/-- The fan-out state: the `clients` set of open channels, the current
WhatsApp `clientStatus`, and the append-only log of every (channel,
payload) write performed so far. -/
structure FanState where
  clients : List Nat
  waState : String
  log : List (Nat × Msg)
deriving DecidableEq, Repr

/-- One event-loop step (src/server.js lines 27-54, src/whatsapp.js
clientStatus updates).  GET /api/events writes the connected frame, adds
the channel to `clients`, and writes the current gateway status — all
synchronously, so the three actions form one atomic step.  `broadcast`
writes one frame to every currently registered channel. -/
def fanStep (s : FanState) : FanOp → FanState
  | FanOp.subscribe ch =>
      { s with clients := ch :: s.clients,
               log := s.log ++ [(ch, Msg.connected), (ch, Msg.waStatus s.waState)] }
  | FanOp.close ch => { s with clients := s.clients.erase ch }
  | FanOp.setStatus st => { s with waState := st }
  | FanOp.publish n => { s with log := s.log ++ s.clients.map (fun c => (c, Msg.ev n)) }

/-- Run a sequence of event-loop steps. -/
def fanRun (init : FanState) (ops : List FanOp) : FanState :=
  ops.foldl fanStep init

/-- Server start-up state: no channels, gateway disconnected, nothing
written. -/
def initFan : FanState :=
  { clients := [], waState := "disconnected", log := [] }

/-- The payloads a given channel has received, in write order. -/
def received (s : FanState) (ch : Nat) : List Msg :=
  (s.log.filter (fun p => p.1 == ch)).map (fun p => p.2)

/-- A row of the `message_logs` table (src/unnamed/part_000 lines 215-228,
inserted by `messageOps.create`). -/
structure MessageLogEntry where
  customer_id : Option Nat
  customer_nama : Option String
  phone : Option String
  message_type : String
  status : String
  message_preview : Option String
  error_message : Option String
  sent_by : Option Nat
deriving DecidableEq, Repr

/-- The outcome of calling a JS async function: a returned value or a
rejection carrying the thrown error's message. -/
inductive JsResult (α : Type) where
  | ret (val : α)
  | thrown (err : String)
deriving DecidableEq, Repr

/-- The object `sendBillingMessage` returns: { success, error? } (the
success/customer/phone fields beyond `success` are not read by the
broadcast loop except `error`). -/
structure SendResult where
  success : Bool
  error : Option String
deriving DecidableEq, Repr

/-- `customer.whatsapp.replace(/\D/g, '')`: keep only digit characters. -/
def digitsOnly (s : String) : String :=
  String.mk (s.data.filter Char.isDigit)

/-- Phone normalization in `sendBillingMessage`: strip non-digits, then
replace a leading 0 by the country code 62. -/
def formatPhone (w : String) : String :=
  let phone := digitsOnly w
  if phone.startsWith "0" then "62" ++ phone.drop 1 else phone

/-- The catch branch of `sendBillingMessage` (src/whatsapp.js lines
218-234).  Its body builds the argument of `messageOps.create`, whose
second property reads the identifier `customer`; but `customer` is
declared with `const` inside the try block and the catch block is a
sibling scope, so the read throws ReferenceError ("customer is not
defined") before `messageOps.create` ever runs — the optional chaining in
`customer?.nama` guards a null value, not an unresolved identifier.  The
async function therefore rejects, no failure row is inserted, and the
intended `return { success:false, error }` is unreachable. -/
def sendCatchBranch (logs : List MessageLogEntry) :
    JsResult SendResult × List MessageLogEntry :=
  (JsResult.thrown "customer is not defined", logs)

/-- `sendBillingMessage` (src/whatsapp.js lines 186-235).  `ready` models
`client && clientStatus === 'ready'`; `transport cid` models whether
`client.sendMessage` to that customer's chat resolves.  Every throwing
path of the try block lands in the catch branch, which itself throws (see
`sendCatchBranch`); the success path inserts one success row and returns
{ success:true }. -/
def sendBillingMessage (ready : Bool) (customers : List Customer)
    (transport : Nat → Bool) (logs : List MessageLogEntry)
    (customerId : Nat) (message : String) (userId : Option Nat) :
    JsResult SendResult × List MessageLogEntry :=
  if !ready then
    sendCatchBranch logs
  else
    match customers.find? (fun c => c.id == customerId) with
    | none => sendCatchBranch logs
    | some customer =>
        let formattedPhone := formatPhone customer.whatsapp
        if transport customerId then
          (JsResult.ret { success := true, error := none },
            logs ++ [{ customer_id := some customerId
                       customer_nama := some customer.nama
                       phone := some formattedPhone
                       message_type := "billing"
                       status := "success"
                       message_preview := some (message.take 200)
                       error_message := none
                       sent_by := userId }])
        else
          sendCatchBranch logs

/-- `formatMessage` (src/whatsapp.js lines 171-183): substitute the
placeholders of the template.  Locale date rendering is passed in as
`today`/`period`, and `toLocaleString` number formatting is abstracted to
`toString`; both are opaque collaborators irrelevant to the counted
outcomes. -/
def formatMessage (template today period : String) (customer : Customer)
    (amount : Int) : String :=
  ((((((template.replace "{nama}" customer.nama).replace
      "{jumlah}" (toString amount)).replace
      "{tipe}" (if customer.tipe == "internet" then "Internet/PPPoE" else "LPG 3kg")).replace
      "{tanggal}" today).replace
      "{periode}" period).replace
      "{username}" (customer.username_pppoe.getD "-")).replace
      "{password}" (customer.password_pppoe.getD "-")

/-- One element of `results.details` in `broadcastBillingMessage`. -/
structure BroadcastDetail where
  customer : String
  status : String
  error : Option String
deriving DecidableEq, Repr

/-- The `results` accumulator of `broadcastBillingMessage`. -/
structure BroadcastSummary where
  total : Nat
  success : Nat
  failed : Nat
  details : List BroadcastDetail
deriving DecidableEq, Repr

/-- What `broadcastBillingMessage` resolves to: the completed summary, or
the { success:false, error } object its outer catch returns when the loop
is aborted by a rejection. -/
inductive BroadcastOutcome where
  | completed (summary : BroadcastSummary)
  | failedWith (err : String)
deriving DecidableEq, Repr

/-- The for-loop of `broadcastBillingMessage` (src/whatsapp.js lines
245-268) over the debtor list.  Each iteration increments total, renders
the template, awaits `sendBillingMessage`, and tallies the returned
result; a rejection of the awaited call propagates to the outer catch,
which discards the accumulator and returns { success:false, error }. -/
def broadcastGo (ready : Bool) (customers : List Customer)
    (transport : Nat → Bool) (template today period : String)
    (userId : Option Nat) :
    List (Customer × Int) → BroadcastSummary → List MessageLogEntry →
      BroadcastOutcome × List MessageLogEntry
  | [], acc, logs => (BroadcastOutcome.completed acc, logs)
  | (c, debt) :: rest, acc, logs =>
      let msg := formatMessage template today period c debt
      match sendBillingMessage ready customers transport logs c.id msg userId with
      | (JsResult.ret r, logs2) =>
          broadcastGo ready customers transport template today period userId rest
            { total := acc.total + 1
              success := acc.success + (if r.success then 1 else 0)
              failed := acc.failed + (if r.success then 0 else 1)
              details := acc.details ++
                [{ customer := c.nama
                   status := if r.success then "success" else "failed"
                   error := r.error }] }
            logs2
      | (JsResult.thrown e, logs2) => (BroadcastOutcome.failedWith e, logs2)

/-- `broadcastBillingMessage` (src/whatsapp.js lines 238-280): iterate
`customerOps.getWithPending()` with the loop above, starting from the
zero summary.  The fixed 1.5 s inter-message delay changes no observable
data and is dropped. -/
def broadcastBillingMessage (ready : Bool) (db : DB) (transport : Nat → Bool)
    (template today period : String) (userId : Option Nat)
    (logs : List MessageLogEntry) : BroadcastOutcome × List MessageLogEntry :=
  broadcastGo ready db.customers transport template today period userId
    (getWithPending db) { total := 0, success := 0, failed := 0, details := [] } logs

/-- `customerOps.delete` (src/unnamed/part_000 lines 390-398) under
PRAGMA foreign_keys = ON.  The DELETE statement is rejected by SQLite
(throws, state unchanged) when any transactions row or message_logs row
still references the customer, since both carry FOREIGN KEY (customer_id)
REFERENCES customers(id) with no ON DELETE action. -/
def customerDelete (db : DB) (msgLogs : List MessageLogEntry) (id : Nat) :
    JsResult (Bool × DB) :=
  match db.customers.find? (fun c => c.id == id) with
  | none => JsResult.ret (false, db)
  | some _ =>
      if db.transactions.any (fun t => t.customer_id == id)
          || msgLogs.any (fun m => m.customer_id == some id) then
        JsResult.thrown "FOREIGN KEY constraint failed"
      else
        JsResult.ret (true, { db with customers := db.customers.filter (fun c => c.id != id) })

/-- Route DELETE /api/customers/:id (src/server.js lines 301-314): the
thrown store error is caught and mapped to 500; a false return maps to
404; true to 200. -/
def deleteCustomerRoute (db : DB) (msgLogs : List MessageLogEntry) (id : Nat) :
    Nat × DB :=
  match customerDelete db msgLogs id with
  | JsResult.thrown _ => (500, db)
  | JsResult.ret (false, _) => (404, db)
  | JsResult.ret (true, db2) => (200, db2)

/-! Concrete store states used to evaluate the verified operations. -/

/-- An active internet customer. -/
def custW : Customer :=
  { id := 1, nama := "Andi", tipe := "internet", whatsapp := "081234567",
    username_pppoe := some "andi", password_pppoe := some "rahasia",
    alamat := some "Jl. Mawar 1", aktif := true }

/-- A pending invoice of 150000 for `custW`. -/
def transW : Transaction :=
  { id := 1, customer_id := 1, customer_nama := "Andi", customer_tipe := "internet",
    kategori := "internet", jumlah := 150000, jenis := Jenis.pemasukan,
    status := TStatus.pending, deskripsi := none, created_by := some 1 }

/-- A store holding one active customer with one pending invoice. -/
def dbW : DB := { customers := [custW], transactions := [transW], nextTransId := 2 }

/-- The already-settled variant of `transW`. -/
def transSettled : Transaction := { transW with status := TStatus.lunas }

/-- A store whose only transaction is already settled. -/
def dbSettled : DB :=
  { customers := [custW], transactions := [transSettled], nextTransId := 2 }

/-- The empty store. -/
def dbEmpty : DB := { customers := [], transactions := [], nextTransId := 1 }

/-- Three active debtors for the broadcast scenario. -/
def custA : Customer :=
  { id := 1, nama := "Ani", tipe := "internet", whatsapp := "0811111",
    username_pppoe := some "ani", password_pppoe := some "pw1", alamat := none, aktif := true }

def custB : Customer :=
  { id := 2, nama := "Budi", tipe := "gas", whatsapp := "0822222",
    username_pppoe := none, password_pppoe := none, alamat := none, aktif := true }

def custC : Customer :=
  { id := 3, nama := "Citra", tipe := "internet", whatsapp := "0833333",
    username_pppoe := some "citra", password_pppoe := some "pw3", alamat := none, aktif := true }

def transA : Transaction :=
  { id := 1, customer_id := 1, customer_nama := "Ani", customer_tipe := "internet",
    kategori := "internet", jumlah := 150000, jenis := Jenis.pemasukan,
    status := TStatus.pending, deskripsi := none, created_by := some 1 }

def transB : Transaction :=
  { id := 2, customer_id := 2, customer_nama := "Budi", customer_tipe := "gas",
    kategori := "gas", jumlah := 22000, jenis := Jenis.pemasukan,
    status := TStatus.pending, deskripsi := none, created_by := some 1 }

def transC : Transaction :=
  { id := 3, customer_id := 3, customer_nama := "Citra", customer_tipe := "internet",
    kategori := "internet", jumlah := 150000, jenis := Jenis.pemasukan,
    status := TStatus.pending, deskripsi := none, created_by := some 1 }

/-- A store with exactly three debtors, ids 1, 2, 3. -/
def dbBroadcast : DB :=
  { customers := [custA, custB, custC],
    transactions := [transA, transB, transC], nextTransId := 4 }

/-- A transport that fails exactly for customer id 2 (the second debtor). -/
def transportFail2 : Nat → Bool := fun cid => cid != 2

/-- A stand-in for the opaque one-way compare: accepts when the presented
secret equals the stored hash. -/
def eqCompare : String → String → Bool := fun secret hash => secret == hash

/-- The seeded admin account, active. -/
def adminUser : User :=
  { id := 1, username := "admin", password := "admin123", nama_lengkap := "Administrator",
    role := "admin", aktif := true }

/-- A staff account that has been deactivated after token issuance. -/
def inactiveUser : User :=
  { id := 2, username := "staff", password := "staff123", nama_lengkap := "Staff Kasir",
    role := "staff", aktif := false }

/-- A well-signed, unexpired token issued to `inactiveUser` while it was
still active. -/
def staffToken : Token :=
  { payload := { id := 2, username := "staff", role := "staff" },
    signatureValid := true, expired := false }

/-! Helper lemmas about the store operations. -/

theorem sumJumlah_eq_sum (l : List Transaction) :
    sumJumlah l = (l.map (fun t => t.jumlah)).sum := by
  rw [sumJumlah, List.sum_eq_foldl]

theorem settleRow_id (id : Nat) (u : Transaction) : (settleRow id u).id = u.id := by
  cases h : u.id == id <;> simp [settleRow, h]

theorem settleRow_jumlah (id : Nat) (u : Transaction) :
    (settleRow id u).jumlah = u.jumlah := by
  cases h : u.id == id <;> simp [settleRow, h]

theorem find?_map_settleRow (id : Nat) (l : List Transaction) :
    (l.map (settleRow id)).find? (fun u => u.id == id)
      = (l.find? (fun u => u.id == id)).map (settleRow id) := by
  induction l with
  | nil => rfl
  | cons a l ih =>
      cases h : a.id == id with
      | true =>
          rw [List.map_cons, List.find?_cons_of_pos l (by rw [h]),
            List.find?_cons_of_pos _ (by rw [settleRow_id, h])]
          rfl
      | false =>
          rw [List.map_cons, List.find?_cons_of_neg l (by rw [h]; exact Bool.false_ne_true),
            List.find?_cons_of_neg _ (by rw [settleRow_id, h]; exact Bool.false_ne_true), ih]

theorem markAsLunas_found (db : DB) (id : Nat) (userId : Option Nat) (t : Transaction)
    (h : findTransaction db id = some t) :
    markAsLunas db id userId
      = (true, { db with
            transactions := db.transactions.map (settleRow id) ++ [mkReceipt db t userId],
            nextTransId := db.nextTransId + 1 }) := by
  unfold markAsLunas
  rw [h]

theorem markAsLunas_length (db : DB) (id : Nat) (userId : Option Nat) (t : Transaction)
    (h : findTransaction db id = some t) :
    (markAsLunas db id userId).2.transactions.length = db.transactions.length + 1 := by
  rw [markAsLunas_found db id userId t h]
  simp

theorem markAsLunas_find_after (db : DB) (id : Nat) (userId : Option Nat) (t : Transaction)
    (h : findTransaction db id = some t) :
    findTransaction (markAsLunas db id userId).2 id
      = some { t with status := TStatus.lunas } := by
  rw [markAsLunas_found db id userId t h]
  unfold findTransaction at h ⊢
  have h2 := List.find?_some h
  have ht : (t.id == id) = true := h2
  show (db.transactions.map (settleRow id) ++ [mkReceipt db t userId]).find?
      (fun u => u.id == id) = _
  rw [List.find?_append, find?_map_settleRow, h]
  simp [Option.or, settleRow, ht]

theorem isReceiptOf_settleRow (amount : Int) (id : Nat) (u : Transaction) :
    isReceiptOf amount (settleRow id u) = isReceiptOf amount u := by
  cases h : u.id == id <;> simp [settleRow, h, isReceiptOf]

theorem isReceiptOf_mkReceipt (db : DB) (t : Transaction) (userId : Option Nat) :
    isReceiptOf t.jumlah (mkReceipt db t userId) = true := by
  simp [isReceiptOf, mkReceipt]

theorem receiptCount_after (db : DB) (id : Nat) (userId : Option Nat) (t : Transaction)
    (h : findTransaction db id = some t) :
    receiptCount (markAsLunas db id userId).2 t.jumlah = receiptCount db t.jumlah + 1 := by
  rw [markAsLunas_found db id userId t h]
  unfold receiptCount
  rw [List.filter_append]
  have hmap : ((db.transactions.map (settleRow id)).filter (isReceiptOf t.jumlah)).length
      = (db.transactions.filter (isReceiptOf t.jumlah)).length := by
    rw [← List.countP_eq_length_filter, ← List.countP_eq_length_filter, List.countP_map]
    exact List.countP_congr (fun a _ => by
      show (isReceiptOf t.jumlah (settleRow id a)) = true ↔ _
      rw [isReceiptOf_settleRow])
  simp only [List.length_append, hmap]
  simp [List.filter_cons, isReceiptOf_mkReceipt]

/-! Helper lemmas about the fan-out trace semantics. -/

theorem fan_untouched (ch : Nat) (ops : List FanOp) (s : FanState)
    (hops : FanOp.subscribe ch ∉ ops)
    (hc : ch ∉ s.clients) (hl : s.log.filter (fun p => p.1 == ch) = []) :
    ch ∉ (fanRun s ops).clients
      ∧ (fanRun s ops).log.filter (fun p => p.1 == ch) = [] := by
  induction ops generalizing s with
  | nil => exact ⟨hc, hl⟩
  | cons op rest ih =>
      have hrest : FanOp.subscribe ch ∉ rest := fun m => hops (List.mem_cons_of_mem _ m)
      have hstep : ch ∉ (fanStep s op).clients
          ∧ (fanStep s op).log.filter (fun p => p.1 == ch) = [] := by
        cases op with
        | subscribe ch2 =>
            have hne : ch2 ≠ ch := by
              rintro rfl
              exact hops (List.mem_cons_self _ _)
            constructor
            · simp [fanStep]
              exact ⟨fun e => hne e.symm, hc⟩
            · simp [fanStep, List.filter_append, hl, hne]
        | close ch2 =>
            exact ⟨fun m => hc (List.mem_of_mem_erase m), hl⟩
        | setStatus st => exact ⟨hc, hl⟩
        | publish n =>
            refine ⟨hc, ?_⟩
            simp only [fanStep, List.filter_append, hl, List.nil_append]
            rw [List.filter_eq_nil_iff]
            intro q hq
            obtain ⟨c, hcm, rfl⟩ := List.mem_map.mp hq
            simp only [beq_iff_eq]
            rintro rfl
            exact hc hcm
      exact ih (fanStep s op) hrest hstep.1 hstep.2

theorem fan_receive_after (ch : Nat) (ops : List FanOp) (s : FanState)
    (hops : FanOp.subscribe ch ∉ ops) :
    ∃ rest, received (fanRun s ops) ch = received s ch ++ rest
      ∧ ∀ m ∈ rest, ∃ n, m = Msg.ev n ∧ FanOp.publish n ∈ ops := by
  induction ops generalizing s with
  | nil => exact ⟨[], by simp [fanRun, received], by simp⟩
  | cons op rest ih =>
      have hrest : FanOp.subscribe ch ∉ rest := fun m => hops (List.mem_cons_of_mem _ m)
      obtain ⟨r2, h2, hm2⟩ := ih (fanStep s op) hrest
      have hrun : fanRun s (op :: rest) = fanRun (fanStep s op) rest := by
        simp [fanRun]
      cases op with
      | subscribe ch2 =>
          have hne : ch2 ≠ ch := by
            rintro rfl
            exact hops (List.mem_cons_self _ _)
          have hrecv : received (fanStep s (FanOp.subscribe ch2)) ch = received s ch := by
            simp [received, fanStep, List.filter_append, hne]
          refine ⟨r2, ?_, fun m hm => ?_⟩
          · rw [hrun, h2, hrecv]
          · obtain ⟨n, hn, hp⟩ := hm2 m hm
            exact ⟨n, hn, List.mem_cons_of_mem _ hp⟩
      | close ch2 =>
          have hrecv : received (fanStep s (FanOp.close ch2)) ch = received s ch := by
            simp [received, fanStep]
          refine ⟨r2, ?_, fun m hm => ?_⟩
          · rw [hrun, h2, hrecv]
          · obtain ⟨n, hn, hp⟩ := hm2 m hm
            exact ⟨n, hn, List.mem_cons_of_mem _ hp⟩
      | setStatus st =>
          have hrecv : received (fanStep s (FanOp.setStatus st)) ch = received s ch := by
            simp [received, fanStep]
          refine ⟨r2, ?_, fun m hm => ?_⟩
          · rw [hrun, h2, hrecv]
          · obtain ⟨n, hn, hp⟩ := hm2 m hm
            exact ⟨n, hn, List.mem_cons_of_mem _ hp⟩
      | publish n =>
          have hrecv : received (fanStep s (FanOp.publish n)) ch
              = received s ch
                ++ ((s.clients.map (fun c => (c, Msg.ev n))).filter
                      (fun p => p.1 == ch)).map (fun p => p.2) := by
            simp [received, fanStep, List.filter_append]
          refine ⟨((s.clients.map (fun c => (c, Msg.ev n))).filter
              (fun p => p.1 == ch)).map (fun p => p.2) ++ r2, ?_, fun m hm => ?_⟩
          · rw [hrun, h2, hrecv, List.append_assoc]
          · rcases List.mem_append.mp hm with hm1 | hm1
            · obtain ⟨q, hq, rfl⟩ := List.mem_map.mp hm1
              have hq2 := (List.mem_filter.mp hq).1
              obtain ⟨c, _, rfl⟩ := List.mem_map.mp hq2
              exact ⟨n, rfl, List.mem_cons_self _ _⟩
            · obtain ⟨n2, hn2, hp2⟩ := hm2 m hm1
              exact ⟨n2, hn2, List.mem_cons_of_mem _ hp2⟩

/-! The claims. -/

/-- C1: for every existing transaction with amount A, markAsLunas sets that
transaction's status to settled and appends exactly one new record —
direction income, status settled, amount A, described as the automatic
payment receipt — to the otherwise status-flipped table; for a missing id
the route answers 404 and the store is unchanged. -/
theorem C1_mark_settled (db : DB) (id : Nat) (userId : Option Nat) :
    (∀ t, findTransaction db id = some t →
        (markAsLunas db id userId).1 = true
        ∧ (markAsLunas db id userId).2.transactions
            = db.transactions.map (settleRow id) ++ [mkReceipt db t userId]
        ∧ (mkReceipt db t userId).jenis = Jenis.pemasukan
        ∧ (mkReceipt db t userId).status = TStatus.lunas
        ∧ (mkReceipt db t userId).jumlah = t.jumlah
        ∧ (mkReceipt db t userId).deskripsi = some "Pembayaran otomatis"
        ∧ (markAsLunas db id userId).2.transactions.length = db.transactions.length + 1
        ∧ ∀ u ∈ (markAsLunas db id userId).2.transactions,
            u.id = id → u.status = TStatus.lunas)
    ∧ (findTransaction db id = none → markLunasRoute db id userId = (404, db)) := by
  constructor
  · intro t h
    rw [markAsLunas_found db id userId t h]
    refine ⟨rfl, rfl, rfl, rfl, rfl, rfl, by simp, ?_⟩
    intro u hu hid
    rcases List.mem_append.mp hu with hu1 | hu1
    · obtain ⟨v, hv, rfl⟩ := List.mem_map.mp hu1
      by_cases hvid : (v.id == id) = true
      · simp [settleRow, hvid]
      · have hrow : settleRow id v = v := by simp [settleRow, hvid]
        rw [hrow] at hid
        exact absurd (beq_iff_eq.mpr hid) hvid
    · rw [List.mem_singleton.mp hu1]
      rfl
  · intro h
    simp [markLunasRoute, markAsLunas, h]

/-- Witness for C1 at concrete stores: the pending 150000 invoice is
settled with one inserted receipt, and a missing id yields 404 with the
store unchanged. -/
theorem C1_witness :
    ((markAsLunas dbW 1 (some 1)).1 = true
      ∧ (markAsLunas dbW 1 (some 1)).2.transactions
          = dbW.transactions.map (settleRow 1) ++ [mkReceipt dbW transW (some 1)]
      ∧ (mkReceipt dbW transW (some 1)).jenis = Jenis.pemasukan
      ∧ (mkReceipt dbW transW (some 1)).status = TStatus.lunas
      ∧ (mkReceipt dbW transW (some 1)).jumlah = transW.jumlah
      ∧ (mkReceipt dbW transW (some 1)).deskripsi = some "Pembayaran otomatis"
      ∧ (markAsLunas dbW 1 (some 1)).2.transactions.length = dbW.transactions.length + 1
      ∧ ∀ u ∈ (markAsLunas dbW 1 (some 1)).2.transactions,
          u.id = 1 → u.status = TStatus.lunas)
    ∧ markLunasRoute dbEmpty 99 (some 1) = (404, dbEmpty) :=
  ⟨(C1_mark_settled dbW 1 (some 1)).1 transW (by decide),
   (C1_mark_settled dbEmpty 99 (some 1)).2 (by decide)⟩

/-- C8: markAsLunas is not idempotent — on an already settled transaction
it still reports success, leaves the original row in place (the repeated
flip is a no-op), and inserts one more synthetic receipt of the same
amount, so two calls on the same id add two receipts. -/
theorem C8_not_idempotent (db : DB) (id : Nat) (userId : Option Nat) (t : Transaction)
    (h : findTransaction db id = some t) :
    (t.status = TStatus.lunas →
        (markAsLunas db id userId).1 = true
        ∧ findTransaction (markAsLunas db id userId).2 id = some t
        ∧ (markAsLunas db id userId).2.transactions.length = db.transactions.length + 1
        ∧ receiptCount (markAsLunas db id userId).2 t.jumlah
            = receiptCount db t.jumlah + 1)
    ∧ (markAsLunas (markAsLunas db id userId).2 id userId).2.transactions.length
        = db.transactions.length + 2
    ∧ receiptCount (markAsLunas (markAsLunas db id userId).2 id userId).2 t.jumlah
        = receiptCount db t.jumlah + 2 := by
  have f1 := markAsLunas_find_after db id userId t h
  have l1 := markAsLunas_length db id userId t h
  have r1 := receiptCount_after db id userId t h
  have l2 := markAsLunas_length _ id userId _ f1
  have r2 := receiptCount_after _ id userId _ f1
  refine ⟨fun hs => ⟨?_, ?_, l1, r1⟩, ?_, ?_⟩
  · rw [markAsLunas_found db id userId t h]
  · rw [f1]
    congr 1
    cases t
    simp_all
  · rw [l2, l1]
  · have hj : ({ t with status := TStatus.lunas } : Transaction).jumlah = t.jumlah := rfl
    rw [hj] at r2
    rw [r2, r1]

/-- Witness for C8 at a concrete store whose only transaction is already
settled. -/
theorem C8_witness :
    ((markAsLunas dbSettled 1 (some 1)).1 = true
      ∧ findTransaction (markAsLunas dbSettled 1 (some 1)).2 1 = some transSettled
      ∧ (markAsLunas dbSettled 1 (some 1)).2.transactions.length
          = dbSettled.transactions.length + 1
      ∧ receiptCount (markAsLunas dbSettled 1 (some 1)).2 transSettled.jumlah
          = receiptCount dbSettled transSettled.jumlah + 1)
    ∧ (markAsLunas (markAsLunas dbSettled 1 (some 1)).2 1 (some 1)).2.transactions.length
        = dbSettled.transactions.length + 2
    ∧ receiptCount
          (markAsLunas (markAsLunas dbSettled 1 (some 1)).2 1 (some 1)).2
          transSettled.jumlah
        = receiptCount dbSettled transSettled.jumlah + 2 := by
  have h := C8_not_idempotent dbSettled 1 (some 1) transSettled (by decide)
  exact ⟨h.1 (by decide), h.2.1, h.2.2⟩

/-- C9: stats returns the sum of income-direction amounts, the sum of
expense-direction amounts, the sum of all pending amounts regardless of
direction, balance = income − expense, and all zeros on an empty
transaction table. -/
theorem C9_stats (db : DB) :
    (getStats db).income
        = ((db.transactions.filter (fun t => t.jenis == Jenis.pemasukan)).map
            (fun t => t.jumlah)).sum
    ∧ (getStats db).expense
        = ((db.transactions.filter (fun t => t.jenis == Jenis.pengeluaran)).map
            (fun t => t.jumlah)).sum
    ∧ (getStats db).pending
        = ((db.transactions.filter (fun t => t.status == TStatus.pending)).map
            (fun t => t.jumlah)).sum
    ∧ (getStats db).balance = (getStats db).income - (getStats db).expense
    ∧ getStats dbEmpty = { income := 0, expense := 0, pending := 0, balance := 0 } := by
  refine ⟨?_, ?_, ?_, rfl, by decide⟩ <;> simp [getStats, sumJumlah_eq_sum]

/-- C7: every customer returned by getWithPending is active, has at least
one pending transaction, and is annotated with the sum of its pending
amounts, which is strictly positive. -/
theorem C7_outstanding (db : DB) (p : Customer × Int) (hp : p ∈ getWithPending db) :
    p.1.aktif = true
    ∧ (∃ t ∈ db.transactions, t.customer_id = p.1.id ∧ t.status = TStatus.pending)
    ∧ p.2 = pendingTotal db p.1.id
    ∧ 0 < p.2 := by
  obtain ⟨c, hc, rfl⟩ := List.mem_map.mp hp
  obtain ⟨hmem, hpred⟩ := List.mem_filter.mp hc
  simp only [Bool.and_eq_true, List.any_eq_true, decide_eq_true_eq, isPendingOf,
    beq_iff_eq] at hpred
  obtain ⟨⟨hak, t, ht, hc1, hc2⟩, hpos⟩ := hpred
  exact ⟨hak, ⟨t, ht, hc1, hc2⟩, rfl, hpos⟩

/-- Witness for C7 at a concrete store: the single active debtor comes back
annotated with its positive pending sum. -/
theorem C7_witness :
    custW.aktif = true
    ∧ (∃ t ∈ dbW.transactions, t.customer_id = custW.id ∧ t.status = TStatus.pending)
    ∧ (150000 : Int) = pendingTotal dbW custW.id
    ∧ (0 : Int) < 150000 :=
  C7_outstanding dbW (custW, 150000) (by decide)

/-- C4 fails on the code: the unknown-handle failure and the wrong-secret
failure produce different observable responses — same 401 status, but
distinct body error strings — so the two causes are distinguishable. -/
theorem C4_counterexample :
    (login eqCompare [adminUser] "ghost" "admin123").status = 401
    ∧ (login eqCompare [adminUser] "admin" "wrong").status = 401
    ∧ login eqCompare [adminUser] "ghost" "admin123"
        ≠ login eqCompare [adminUser] "admin" "wrong" := by
  decide

/-- C4 amended: both failure causes yield HTTP 401 with success:false, but
with distinct error messages — 'Username tidak ditemukan' for an unknown
handle and 'Password salah' for a secret mismatch — so the caller can tell
which check failed. -/
theorem C4_amended (verify : String → String → Bool) (users : List User)
    (handle1 pw1 handle2 pw2 : String) (u : User)
    (h1 : users.find? (fun v => v.username == handle1) = none)
    (h2 : users.find? (fun v => v.username == handle2) = some u)
    (hact : u.aktif = true) (hv : verify pw2 u.password = false) :
    login verify users handle1 pw1
        = { status := 401, success := false, error := some "Username tidak ditemukan" }
    ∧ login verify users handle2 pw2
        = { status := 401, success := false, error := some "Password salah" }
    ∧ (login verify users handle1 pw1).error ≠ (login verify users handle2 pw2).error := by
  refine ⟨?_, ?_, ?_⟩ <;> simp [login, h1, h2, hact, hv]

/-- Witness for the amended C4 at a concrete user table. -/
theorem C4_witness :
    login eqCompare [adminUser] "ghost" "admin123"
        = { status := 401, success := false, error := some "Username tidak ditemukan" }
    ∧ login eqCompare [adminUser] "admin" "wrong"
        = { status := 401, success := false, error := some "Password salah" }
    ∧ (login eqCompare [adminUser] "ghost" "admin123").error
        ≠ (login eqCompare [adminUser] "admin" "wrong").error :=
  C4_amended eqCompare [adminUser] "ghost" "admin123" "admin" "wrong" adminUser
    (by decide) (by decide) (by decide) (by decide)

/-- C5 fails as stated: the authenticateToken middleware — the validation
gating every other API route — does not re-read the user row, so the
well-signed unexpired token of a deactivated user still passes it. -/
theorem C5_counterexample :
    inactiveUser.aktif = false
    ∧ staffToken.expired = false
    ∧ [inactiveUser].find? (fun u => u.id == staffToken.payload.id) = some inactiveUser
    ∧ authenticateToken staffToken = Except.ok staffToken.payload := by
  refine ⟨rfl, rfl, by decide, rfl⟩

/-- C5 amended: validation through GET /api/auth/verify re-reads the
user's current stored state and rejects a deactivated user's token with
401 even while the token is unexpired; the authenticateToken middleware,
however, trusts the token payload and does not re-read the user. -/
theorem C5_amended (users : List User) (tok : Token) (decoded : TokenPayload) (u : User)
    (hdec : jwtVerify tok = some decoded)
    (hu : users.find? (fun v => v.id == decoded.id) = some u)
    (hinact : u.aktif = false) :
    verifyEndpoint users tok
      = { status := 401, success := false, error := some "User tidak valid" } := by
  simp [verifyEndpoint, hdec, hu, hinact]

/-- Witness for the amended C5: the deactivated staff account's unexpired
token is rejected by the verify endpoint. -/
theorem C5_witness :
    verifyEndpoint [inactiveUser] staffToken
      = { status := 401, success := false, error := some "User tidak valid" } :=
  C5_amended [inactiveUser] staffToken staffToken.payload inactiveUser
    (by decide) (by decide) (by decide)

/-- C6: a channel subscribing to the event stream receives the connected
ack first and the gateway status current at subscription time second, and
every further payload it receives is an event published after its
subscription — never one published strictly before. -/
theorem C6_event_stream (pre post : List FanOp) (ch : Nat)
    (hpre : FanOp.subscribe ch ∉ pre) (hpost : FanOp.subscribe ch ∉ post) :
    (received (fanRun initFan (pre ++ FanOp.subscribe ch :: post)) ch).take 2
        = [Msg.connected, Msg.waStatus (fanRun initFan pre).waState]
    ∧ ∀ m ∈ (received (fanRun initFan (pre ++ FanOp.subscribe ch :: post)) ch).drop 2,
        ∃ n, m = Msg.ev n ∧ FanOp.publish n ∈ post := by
  have hrun : fanRun initFan (pre ++ FanOp.subscribe ch :: post)
      = fanRun (fanStep (fanRun initFan pre) (FanOp.subscribe ch)) post := by
    simp [fanRun, List.foldl_append]
  have hinit : (initFan.log.filter (fun p => p.1 == ch)) = [] := by
    simp [initFan]
  have hinitc : ch ∉ initFan.clients := by
    simp [initFan]
  obtain ⟨_, hl0⟩ := fan_untouched ch pre initFan hpre hinitc hinit
  have hrecv1 : received (fanStep (fanRun initFan pre) (FanOp.subscribe ch)) ch
      = [Msg.connected, Msg.waStatus (fanRun initFan pre).waState] := by
    simp [received, fanStep, List.filter_append, hl0]
  obtain ⟨rest, hr, hm⟩ := fan_receive_after ch post _ hpost
  rw [hrun, hr, hrecv1]
  constructor
  · rfl
  · intro m hm2
    exact hm m hm2

/-- Witness for C6 at a concrete trace: a publish and a foreign
subscription happen before channel 1 connects, a status change and a
publish happen after. -/
theorem C6_witness :
    (received
        (fanRun initFan
          ([FanOp.publish 5, FanOp.subscribe 0]
            ++ FanOp.subscribe 1 :: [FanOp.setStatus "ready", FanOp.publish 9])) 1).take 2
        = [Msg.connected,
           Msg.waStatus (fanRun initFan [FanOp.publish 5, FanOp.subscribe 0]).waState]
    ∧ ∀ m ∈ (received
        (fanRun initFan
          ([FanOp.publish 5, FanOp.subscribe 0]
            ++ FanOp.subscribe 1 :: [FanOp.setStatus "ready", FanOp.publish 9])) 1).drop 2,
        ∃ n, m = Msg.ev n ∧ FanOp.publish n ∈ [FanOp.setStatus "ready", FanOp.publish 9] :=
  C6_event_stream [FanOp.publish 5, FanOp.subscribe 0]
    [FanOp.setStatus "ready", FanOp.publish 9] 1 (by decide) (by decide)

/-- C10: deleting a customer that still has transactions referencing it is
rejected by the enabled foreign-key constraint and surfaces as a 500 with
the store unchanged; conversely a 200 deletion implies no transaction
referenced the customer. -/
theorem C10_delete_restricted (db : DB) (msgLogs : List MessageLogEntry) (id : Nat)
    (hc : ∃ c ∈ db.customers, c.id = id)
    (ht : ∃ t ∈ db.transactions, t.customer_id = id) :
    deleteCustomerRoute db msgLogs id = (500, db)
    ∧ ∀ (db2 : DB) (ml2 : List MessageLogEntry) (cid : Nat),
        (deleteCustomerRoute db2 ml2 cid).1 = 200 →
          ∀ t ∈ db2.transactions, t.customer_id ≠ cid := by
  constructor
  · have hfind : ∃ c0, db.customers.find? (fun c => c.id == id) = some c0 := by
      cases hf : db.customers.find? (fun c => c.id == id) with
      | some c0 => exact ⟨c0, rfl⟩
      | none =>
          obtain ⟨c, hcm, hcid⟩ := hc
          have hnone := List.find?_eq_none.mp hf c hcm
          simp [hcid] at hnone
    obtain ⟨c0, hc0⟩ := hfind
    have hany : db.transactions.any (fun t => t.customer_id == id) = true := by
      obtain ⟨t, htm, htid⟩ := ht
      exact List.any_eq_true.mpr ⟨t, htm, by simp [htid]⟩
    simp [deleteCustomerRoute, customerDelete, hc0, hany]
  · intro db2 ml2 cid h200 t htm hcid
    cases hf2 : db2.customers.find? (fun c => c.id == cid) with
    | none => simp [deleteCustomerRoute, customerDelete, hf2] at h200
    | some c1 =>
        have hany2 : db2.transactions.any (fun t => t.customer_id == cid) = true :=
          List.any_eq_true.mpr ⟨t, htm, by simp [hcid]⟩
        simp [deleteCustomerRoute, customerDelete, hf2, hany2] at h200

/-- Witness for C10: deleting the customer that owns the pending invoice is
refused with 500 and nothing changes; and a 200 delete never leaves a
referencing transaction behind. -/
theorem C10_witness :
    deleteCustomerRoute dbW [] 1 = (500, dbW)
    ∧ ∀ (db2 : DB) (ml2 : List MessageLogEntry) (cid : Nat),
        (deleteCustomerRoute db2 ml2 cid).1 = 200 →
          ∀ t ∈ db2.transactions, t.customer_id ≠ cid :=
  C10_delete_restricted dbW [] 1
    ⟨custW, by decide, by decide⟩ ⟨transW, by decide, by decide⟩

/-- C2 fails on the code: with three debtors and the transport failing only
for the second, the broadcast does not return the summary
total 3 / success 2 / failed 1 — the rejected send (see `sendCatchBranch`)
propagates to the outer catch, the broadcast answers
success:false / error:"customer is not defined", only the first debtor's
send was logged, and the third debtor is never attempted. -/
theorem C2_broadcast_aborts :
    (broadcastBillingMessage true dbBroadcast transportFail2
        "Tagihan {nama} {jumlah}" "7 Oktober 2025" "Oktober 2025" (some 1) []).1
      = BroadcastOutcome.failedWith "customer is not defined"
    ∧ ((broadcastBillingMessage true dbBroadcast transportFail2
        "Tagihan {nama} {jumlah}" "7 Oktober 2025" "Oktober 2025" (some 1) []).2.map
          (fun e => e.customer_id))
      = [some 1] := by
  refine ⟨rfl, rfl⟩

/-- C3 fails on the code: on a transport error — and likewise when the
gateway is not ready — `sendBillingMessage` appends no MessageLogEntry at
all and rejects with the ReferenceError raised inside its own catch block,
instead of logging a failed entry and returning a failure result; only the
success path logs exactly one entry. -/
theorem C3_send_throws :
    sendBillingMessage true [custA] (fun _ => false) [] 1 "halo" (some 1)
        = (JsResult.thrown "customer is not defined", [])
    ∧ sendBillingMessage false [custA] (fun _ => true) [] 1 "halo" (some 1)
        = (JsResult.thrown "customer is not defined", [])
    ∧ (sendBillingMessage true [custA] (fun _ => true) [] 1 "halo" (some 1)).2.length = 1
    ∧ ((sendBillingMessage true [custA] (fun _ => true) [] 1 "halo" (some 1)).2.map
        (fun e => e.status)) = ["success"] := by
  refine ⟨rfl, rfl, rfl, rfl⟩

end Billing
